import Mathlib

/-!
Verification of the google_maps_bus_tracker integration
(custom_components/google_maps_bus_tracker).

The Python source is shallowly embedded: JSON values are an inductive type,
Python exceptions are an explicit error type threaded through `Except`,
Python truthiness and subscript/`.get` semantics are modelled by explicit
functions, datetimes are represented by their epoch second (timezone
conversion preserves the instant).  Parts of the host framework
(Home Assistant's DataUpdateCoordinator refresh machinery and entity
registry) are not in the repository; where a claim depends on them the
model is written from the specification and marked as such.
-/

/-- A parsed JSON value, as produced by `response.json()` in `api.py`.
Object keys are strings; numbers are modelled as integers (the epoch and
duration values used by the integration are integral). -/
inductive Json where
  | null
  | bool (b : Bool)
  | num (n : Int)
  | str (s : String)
  | arr (elems : List Json)
  | obj (entries : List (String × Json))

/-- The Python exceptions that the embedded code can raise. -/
inductive PyExc where
  | keyError (k : String)
  | indexError (msg : String)
  | typeError (msg : String)
  | attributeError (msg : String)
  | valueError (msg : String)
  | gmapsError (msg : String)
deriving DecidableEq

/-- Python truthiness of a JSON value (`if x:` semantics). -/
def pyTruthy : Json → Bool
  | Json.null => false
  | Json.bool b => b
  | Json.num n => n != 0
  | Json.str s => s != ""
  | Json.arr xs => !xs.isEmpty
  | Json.obj kvs => !kvs.isEmpty

/-- Python `==` between a JSON value and a string literal: true exactly when
the value is that string (comparison of a non-string to a string is False). -/
def pyEqStr (v : Json) (s : String) : Bool :=
  match v with
  | Json.str t => t == s
  | _ => false

/-- Dictionary lookup with a default, on raw entry lists. -/
def objGetD (kvs : List (String × Json)) (k : String) (d : Json) : Json :=
  (kvs.lookup k).getD d

/-- Python `d.get(k, default)`: only dictionaries have `.get`; on anything
else an AttributeError is raised. -/
def pyGetD (v : Json) (k : String) (d : Json) : Except PyExc Json :=
  match v with
  | Json.obj kvs => Except.ok (objGetD kvs k d)
  | _ => Except.error (PyExc.attributeError "get")

/-- Python `v[k]` with a string key: KeyError when the key is missing,
TypeError when `v` is not subscriptable by a string. -/
def pyItemStr (v : Json) (k : String) : Except PyExc Json :=
  match v with
  | Json.obj kvs =>
    match kvs.lookup k with
    | some x => Except.ok x
    | none => Except.error (PyExc.keyError k)
  | Json.str _ => Except.error (PyExc.typeError "string indices must be integers")
  | _ => Except.error (PyExc.typeError "object is not subscriptable")

/-- Python `v[0]`: first element of a list or first character of a string;
IndexError when empty, KeyError on a dict (our object keys are strings, so
the integer key `0` is never present), TypeError otherwise. -/
def pyItemZero (v : Json) : Except PyExc Json :=
  match v with
  | Json.arr [] => Except.error (PyExc.indexError "list index out of range")
  | Json.arr (x :: _) => Except.ok x
  | Json.str s =>
    match s.data with
    | [] => Except.error (PyExc.indexError "string index out of range")
    | c :: _ => Except.ok (Json.str (String.mk [c]))
  | Json.obj _ => Except.error (PyExc.keyError "0")
  | _ => Except.error (PyExc.typeError "object is not subscriptable")

/-- Python iteration `for x in v`: lists yield elements, strings their
characters, dicts their keys; other values are not iterable. -/
def pyIter : Json → Except PyExc (List Json)
  | Json.arr xs => Except.ok xs
  | Json.str s => Except.ok (s.data.map (fun c => Json.str (String.mk [c])))
  | Json.obj kvs => Except.ok (kvs.map (fun kv => Json.str kv.1))
  | _ => Except.error (PyExc.typeError "object is not iterable")

/-- Python `str()` of a JSON value, as used in f-strings (containers are
abstracted; the status values formatted by `api.py` are scalars). -/
def pyStr : Json → String
  | Json.null => "None"
  | Json.bool true => "True"
  | Json.bool false => "False"
  | Json.num n => toString n
  | Json.str s => s
  | Json.arr _ => "<list>"
  | Json.obj _ => "<dict>"

/-- A value stored in the dictionary returned by `_extract_bus_info`:
either a raw JSON value or a converted departure datetime (epoch seconds,
`none` for Python `None`). -/
inductive Val where
  | js (j : Json)
  | time (t : Option Int)

/-- The dictionary returned by `_extract_bus_info` (`sensor.py`): an
insertion-ordered string-keyed mapping; `[]` is the empty dict `{}`. -/
abbrev BusInfo := List (String × Val)

/-- `datetime.fromtimestamp(v, tz=UTC)` followed by `astimezone`
(`sensor.py` lines 237-238); the instant is preserved, so the result is the
epoch value itself.  A non-numeric argument raises TypeError and an
out-of-range epoch fails to convert; both are caught by the inner
`except (ValueError, TypeError)` and leave the departure datetime `None`,
modelled here as `none`.  Python `bool` is an `int`, so `True` converts
to epoch 1. -/
def pyFromTimestamp : Json → Option Int
  | Json.num n =>
    if -62135596800 ≤ n ∧ n ≤ 253402300799 then some n else none
  | Json.bool true => some 1
  | _ => none

/-- The generator scan in `sensor.py` lines 218-221: the first step whose
`"travel_mode"` equals `"TRANSIT"`; evaluating the predicate on a step can
raise (missing key, non-dict step). -/
def findBusStep : List Json → Except PyExc (Option Json)
  | [] => Except.ok none
  | step :: rest =>
    match pyItemStr step "travel_mode" with
    | Except.error e => Except.error e
    | Except.ok tm =>
      if pyEqStr tm "TRANSIT" then Except.ok (some step)
      else findBusStep rest

/-- The success branch of `_extract_bus_info` (`sensor.py` lines 227-246):
read transit details off the found step and build the result dictionary,
with `"Unknown"` defaults for the stop name and the line short name and a
`None` departure datetime when the epoch is missing, falsy or fails to
convert. -/
def buildBusInfo (step : Json) : Except PyExc BusInfo :=
  match pyGetD step "transit_details" (Json.obj []) with
  | Except.error e => Except.error e
  | Except.ok transit_details =>
    match pyGetD transit_details "departure_stop" (Json.obj []) with
    | Except.error e => Except.error e
    | Except.ok departure_stop =>
      match pyGetD transit_details "line" (Json.obj []) with
      | Except.error e => Except.error e
      | Except.ok line =>
        match pyGetD transit_details "departure_time" (Json.obj []) with
        | Except.error e => Except.error e
        | Except.ok departure_time =>
          match pyGetD departure_time "value" Json.null with
          | Except.error e => Except.error e
          | Except.ok departure_timestamp =>
            let departure_dt : Option Int :=
              if pyTruthy departure_timestamp then pyFromTimestamp departure_timestamp
              else none
            match pyGetD departure_stop "name" (Json.str "Unknown") with
            | Except.error e => Except.error e
            | Except.ok stop_name =>
              match pyGetD line "short_name" (Json.str "Unknown") with
              | Except.error e => Except.error e
              | Except.ok line_number =>
                Except.ok [("stop_name", Val.js stop_name),
                           ("line_number", Val.js line_number),
                           ("next_departure", Val.time departure_dt)]

/-- The structural walk `response["routes"][0]["legs"][0]["steps"]` followed
by iteration over the steps (`sensor.py` lines 213-215). -/
def extractSteps (response : Json) : Except PyExc (List Json) :=
  match pyItemStr response "routes" with
  | Except.error e => Except.error e
  | Except.ok routes =>
    match pyItemZero routes with
    | Except.error e => Except.error e
    | Except.ok route =>
      match pyItemStr route "legs" with
      | Except.error e => Except.error e
      | Except.ok legs =>
        match pyItemZero legs with
        | Except.error e => Except.error e
        | Except.ok leg =>
          match pyItemStr leg "steps" with
          | Except.error e => Except.error e
          | Except.ok steps => pyIter steps

/-- The body of the `try` block of `_extract_bus_info` (`sensor.py` lines
208-246).  An error value corresponds to a raised exception, which the
enclosing handler turns into the empty dictionary. -/
def extract_core (response : Json) : Except PyExc BusInfo :=
  match pyGetD response "routes" Json.null with
  | Except.error e => Except.error e
  | Except.ok routesV =>
    if pyTruthy routesV then
      match extractSteps response with
      | Except.error e => Except.error e
      | Except.ok stepList =>
        match findBusStep stepList with
        | Except.error e => Except.error e
        | Except.ok none => Except.ok []
        | Except.ok (some step) =>
          if pyTruthy step then buildBusInfo step
          else Except.ok []
    else Except.ok []

/-- `BusTrackerCoordinator._extract_bus_info` (`sensor.py` lines 199-249):
the `try` body with the catch-all `except Exception` that returns `{}` on
any raised exception.  Total by construction — it never fails. -/
def _extract_bus_info (response : Json) : BusInfo :=
  match extract_core response with
  | Except.ok info => info
  | Except.error _ => []

/-- The outcome of `self.api.get_directions(...)` as seen by
`_async_update_data`: a parsed response, a `GoogleMapsAPIError`, or any
other exception. -/
inductive RefreshOutcome where
  | fetched (response : Json)
  | apiError (msg : String)
  | unexpected (msg : String)

/-- `BusTrackerCoordinator._async_update_data` (`sensor.py` lines 183-197):
extract on success; both `except GoogleMapsAPIError` and the catch-all
`except Exception` log and return `{}`.  Total — the refresh body never
propagates an error. -/
def _async_update_data : RefreshOutcome → BusInfo
  | RefreshOutcome.fetched response => _extract_bus_info response
  | RefreshOutcome.apiError _ => []
  | RefreshOutcome.unexpected _ => []

/-- The concrete response of testable property 4 of the spec: one route,
one leg of duration 600 seconds, a single TRANSIT step departing at epoch
1700000000. -/
def c3resp : Json :=
  Json.obj [
    ("status", Json.str "OK"),
    ("routes", Json.arr [Json.obj [
      ("legs", Json.arr [Json.obj [
        ("duration", Json.obj [("value", Json.num 600)]),
        ("steps", Json.arr [Json.obj [
          ("travel_mode", Json.str "TRANSIT"),
          ("transit_details", Json.obj [
            ("departure_stop", Json.obj [("name", Json.str "Central Station")]),
            ("arrival_stop", Json.obj [("name", Json.str "Airport")]),
            ("line", Json.obj [("short_name", Json.str "42"),
                               ("name", Json.str "Bus 42")]),
            ("departure_time", Json.obj [("value", Json.num 1700000000)]),
            ("arrival_time", Json.obj [("value", Json.num 1700000600)])])]])]])]])]

/-- The transport-level outcome of the HTTP GET in
`GoogleMapsAPI.get_directions` (`api.py` lines 78-99): a raised
`aiohttp.ClientError` (which `raise_for_status` uses for a non-2xx result),
a 2xx result with a parsed JSON body, or any other unexpected exception
inside the `try` block. -/
inductive FetchOutcome where
  | transportError (msg : String)
  | body (data : Json)
  | otherFault (msg : String)

/-- The API-error message built for a non-"OK" status (`api.py` lines
85-87): the status, then the optional `error_message` when truthy. -/
def apiErrorMessage (status errMsg : Json) : String :=
  let base := "Google Maps API error: " ++ pyStr status
  if pyTruthy errMsg then base ++ " - " ++ pyStr errMsg else base

/-- The `status` field of a parsed body, `Json.null` when absent (the
`data.get("status")` of `api.py` line 83). -/
def statusOf : Json → Json
  | Json.obj kvs => objGetD kvs "status" Json.null
  | _ => Json.null

/-- `GoogleMapsAPI.get_directions` (`api.py` lines 45-99).  Empty arguments
raise ValueError before the `try` block.  A non-"OK" status raises
`GoogleMapsAPIError` inside the `try`, which the catch-all
`except Exception` re-wraps with an "Unexpected error: " prefix — still the
single `gmapsError` kind, its message carrying the status and the optional
error message.  Transport errors and other faults also become
`gmapsError`. -/
def get_directions (origin destination route_number : String)
    (outcome : FetchOutcome) : Except PyExc Json :=
  if origin = "" ∨ destination = "" ∨ route_number = "" then
    Except.error (PyExc.valueError "Origin, destination, and route number are required")
  else
    match outcome with
    | FetchOutcome.transportError msg =>
      Except.error (PyExc.gmapsError ("Error fetching data from Google Maps API: " ++ msg))
    | FetchOutcome.otherFault msg =>
      Except.error (PyExc.gmapsError ("Unexpected error: " ++ msg))
    | FetchOutcome.body data =>
      match data with
      | Json.obj kvs =>
        if pyEqStr (objGetD kvs "status" Json.null) "OK" then Except.ok data
        else
          Except.error (PyExc.gmapsError ("Unexpected error: " ++
            apiErrorMessage (objGetD kvs "status" Json.null)
              (objGetD kvs "error_message" Json.null)))
      | _ => Except.error (PyExc.gmapsError "Unexpected error: get")

/-- A Python positional argument at the `GoogleMapsAPI(...)` call sites:
the HomeAssistant object, a config-entry data dict, or a string. -/
inductive PyArg where
  | hassObj
  | configData (kvs : List (String × String))
  | strArg (s : String)

/-- Python truthiness of such an argument (`if not api_key:`). -/
def pyArgTruthy : PyArg → Bool
  | PyArg.hassObj => true
  | PyArg.configData kvs => !kvs.isEmpty
  | PyArg.strArg s => s != ""

/-- The client object built by `GoogleMapsAPI.__init__`, holding whatever
was bound to its `api_key` parameter. -/
structure APIClient where
  boundKey : PyArg

/-- A call `GoogleMapsAPI(args...)` (`api.py` lines 20-28): the constructor
declares exactly one parameter `api_key`, so any other number of positional
arguments raises TypeError before the body runs; with one argument the body
raises ValueError when the argument is falsy and otherwise stores it. -/
def callGoogleMapsAPI (args : List PyArg) : Except PyExc APIClient :=
  match args with
  | [a] =>
    if pyArgTruthy a then Except.ok { boundKey := a }
    else Except.error (PyExc.valueError "API key is required")
  | _ =>
    Except.error (PyExc.typeError
      "GoogleMapsAPI() takes 1 positional argument but 2 were given")

/-- A config entry as passed to `async_setup_entry`: its `data` mapping. -/
structure ConfigEntryData where
  data : List (String × String)

/-- `async_setup_entry` (`__init__.py` lines 65-131): the `try` block first
evaluates `GoogleMapsAPI(hass, entry.data)` — two positional arguments; if
client construction succeeds the rest of the setup proceeds (storage,
platform forwarding, service registration — elided, they do not raise) and
the function returns True; the catch-all `except Exception` logs and
returns False. -/
def async_setup_entry (entry : ConfigEntryData) : Bool :=
  match callGoogleMapsAPI [PyArg.hassObj, PyArg.configData entry.data] with
  | Except.ok _ => true
  | Except.error _ => false

/-- An exact decimal number `man / 10 ^ exp`, the value of a plain decimal
literal.  Python's `float` holds a binary approximation of this value; for
the coordinate magnitudes the config flow compares, the model uses the
exact decimal value. -/
structure Dec where
  man : Int
  exp : Nat
deriving DecidableEq

/-- The rational value of a decimal. -/
def Dec.toRat (d : Dec) : Rat := Rat.divInt d.man ((10 : Int) ^ d.exp)

/-- Digits to a natural number (helper for the decimal parser). -/
def natOfDigits (cs : List Char) : Nat :=
  cs.foldl (fun a c => a * 10 + (c.toNat - 48)) 0

/-- Python `float(s)` restricted to the plain decimal literals the config
flow deals in: an optional sign, an integer part and an optional fractional
part, at least one digit overall.  Anything else raises ValueError,
modelled as `none`. -/
def parseFloatChars (cs : List Char) : Option Dec :=
  let body : List Char :=
    match cs with
    | '-' :: r => r
    | '+' :: r => r
    | _ => cs
  let neg : Bool :=
    match cs with
    | '-' :: _ => true
    | _ => false
  if (body.filter (fun c => c == '.')).length > 1 then none
  else
    let ip := body.takeWhile (fun c => c != '.')
    let fp := (body.dropWhile (fun c => c != '.')).drop 1
    if ip.isEmpty && fp.isEmpty then none
    else if ip.all Char.isDigit && fp.all Char.isDigit then
      let m : Int := (natOfDigits ip * 10 ^ fp.length + natOfDigits fp : Nat)
      some { man := if neg then -m else m, exp := fp.length }
    else none

/-- `lat, lon = map(float, s.split(','))` (`config_flow.py` line 34): a
ValueError — wrong number of comma-separated parts or a non-numeric part —
is modelled as `none`. -/
def parseCoord (s : String) : Option (Dec × Dec) :=
  match s.data.splitOn ',' with
  | [a, b] =>
    match parseFloatChars a, parseFloatChars b with
    | some lat, some lon => some (lat, lon)
    | _, _ => none
  | _ => none

/-- The range check of `config_flow.py` line 35, `-90 <= lat <= 90` and
`-180 <= lon <= 180`, phrased on exact decimals by cross-multiplication
(`dec_bounds_iff` below identifies it with the rational-value bounds). -/
def coordsInRange (lat lon : Dec) : Bool :=
  ((-90) * (10 : Int) ^ lat.exp ≤ lat.man && lat.man ≤ 90 * (10 : Int) ^ lat.exp) &&
  ((-180) * (10 : Int) ^ lon.exp ≤ lon.man && lon.man ≤ 180 * (10 : Int) ^ lon.exp)

/-- The user input of the config flow form. -/
structure UserInput where
  api_key : String
  origin : String
  destination : String
  route_number : String
deriving DecidableEq

/-- The result of a config-flow step: an entry was created, or the form is
shown again with error codes per field. -/
inductive FlowResult where
  | createEntry (title : String) (data : UserInput)
  | showForm (errors : List (String × String))
deriving DecidableEq

/-- `BusTrackerConfigFlow.async_step_user` with submitted input
(`config_flow.py` lines 30-62): both coordinate fields are validated for
latitude in [-90, 90] and longitude in [-180, 180]; a ValueError while
parsing marks both fields invalid; an entry is created only when there are
no errors. -/
def async_step_user (ui : UserInput) : FlowResult :=
  match parseCoord ui.origin with
  | none =>
    FlowResult.showForm [("origin", "invalid_coordinates"),
                         ("destination", "invalid_coordinates")]
  | some (lat1, lon1) =>
    let e1 : List (String × String) :=
      if coordsInRange lat1 lon1 then [] else [("origin", "invalid_coordinates")]
    match parseCoord ui.destination with
    | none =>
      FlowResult.showForm [("origin", "invalid_coordinates"),
                           ("destination", "invalid_coordinates")]
    | some (lat2, lon2) =>
      let e2 : List (String × String) :=
        if coordsInRange lat2 lon2 then [] else [("destination", "invalid_coordinates")]
      if e1 ++ e2 = [] then
        FlowResult.createEntry ("Bus " ++ ui.route_number) ui
      else FlowResult.showForm (e1 ++ e2)

/-- Holds when a flow result is the form re-shown with the origin field
marked invalid. -/
def rejectsOrigin : FlowResult → Prop
  | FlowResult.showForm errs => ("origin", "invalid_coordinates") ∈ errs
  | FlowResult.createEntry _ _ => False

/-- A `BusTrackerCoordinator` as constructed by the track handler
(`sensor.py` lines 87-93): its configuration fields. -/
structure BusCoordinator where
  origin : String
  destination : String
  route_number : String
deriving DecidableEq

/-- The mutable state the service handlers of `sensor.py` operate on: the
coordinator mapping of `hass.data` (the Registry), the entity registry
contents, the coordinators that received `async_shutdown`, and the number
of Directions Client fetches performed. -/
structure TrackerState where
  coordinators : List (String × BusCoordinator)
  entities : List String
  shutdowns : List String
  fetches : Nat
deriving DecidableEq

/-- The reported outcome of a `track_bus` service call. -/
inductive TrackOutcome where
  | missingParams
  | alreadyTracked
  | tracked
deriving DecidableEq

/-- The entity ids the untrack handler looks up (`sensor.py` line 131), one
per SENSOR_TYPES key; the track handler registers the display entities
under these ids (the host derives them from the entity names — framework
behavior, recorded here directly). -/
def sensorEntityIds (route_number : String) : List String :=
  ["sensor.bus_" ++ route_number ++ "_stop_name",
   "sensor.bus_" ++ route_number ++ "_line_number",
   "sensor.bus_" ++ route_number ++ "_next_departure"]

/-- `async_handle_track_bus` (`sensor.py` lines 71-109): missing or falsy
parameters are reported and nothing changes; an identifier already in the
coordinator mapping is reported as already tracked and nothing changes (no
coordinator constructed, no fetch); otherwise a coordinator is constructed,
its blocking first refresh performs one fetch, the display entities are
added and the mapping entry is inserted. -/
def async_handle_track_bus (route_number origin destination : Option String)
    (st : TrackerState) : TrackerState × TrackOutcome :=
  match route_number, origin, destination with
  | some rn, some o, some d =>
    if rn = "" ∨ o = "" ∨ d = "" then (st, TrackOutcome.missingParams)
    else if (st.coordinators.lookup rn).isSome then (st, TrackOutcome.alreadyTracked)
    else
      ({ coordinators := (rn, { origin := o, destination := d, route_number := rn })
           :: st.coordinators,
         entities := st.entities ++ sensorEntityIds rn,
         shutdowns := st.shutdowns,
         fetches := st.fetches + 1 }, TrackOutcome.tracked)
  | _, _, _ => (st, TrackOutcome.missingParams)

/-- `async_handle_untrack_bus` (`sensor.py` lines 119-140): a missing or
falsy route number is reported and nothing changes; otherwise the route's
display entities found in the entity registry are removed, and when the
identifier is in the coordinator mapping its coordinator is shut down and
the mapping entry removed. -/
def async_handle_untrack_bus (route_number : Option String)
    (st : TrackerState) : TrackerState :=
  match route_number with
  | none => st
  | some rn =>
    if rn = "" then st
    else
      let st1 : TrackerState :=
        { st with entities := st.entities.filter (fun e => !((sensorEntityIds rn).contains e)) }
      match st1.coordinators.lookup rn with
      | some _ =>
        { st1 with
          coordinators := st1.coordinators.filter (fun kv => kv.1 != rn),
          shutdowns := st1.shutdowns ++ [rn] }
      | none => st1

/-- Modelled from the spec: the refresh status of a Route Coordinator
(spec section 4.3) — the state machine of the host framework's
DataUpdateCoordinator, which is not part of this repository. -/
inductive CoordStatus where
  | idle
  | refreshing
  | stopped
deriving DecidableEq

/-- Modelled from the spec: the observable state of one Route Coordinator
(spec sections 4.3 and 5) — the in-progress marker, the callers awaiting
the in-flight refresh, the number of Directions Client fetches started,
the last stored snapshot and whether the refresh schedule is active.  This
machinery lives in the host framework's DataUpdateCoordinator, outside
this repository. -/
structure CoordModel where
  status : CoordStatus
  waiters : List Nat
  fetchCount : Nat
  snapshot : BusInfo
  scheduleActive : Bool

/-- Modelled from the spec: one `refresh()` call arriving (spec section
4.3) — while a refresh is in flight the caller is coalesced into it (no new
fetch); otherwise a fetch is started. -/
def requestRefresh (caller : Nat) (c : CoordModel) : CoordModel :=
  if c.status = CoordStatus.refreshing then
    { c with waiters := c.waiters ++ [caller] }
  else
    { c with status := CoordStatus.refreshing,
             waiters := c.waiters ++ [caller],
             fetchCount := c.fetchCount + 1 }

/-- A batch of `refresh()` calls arriving in some order. -/
def refreshAll (callers : List Nat) (c : CoordModel) : CoordModel :=
  callers.foldl (fun acc k => requestRefresh k acc) c

/-- Modelled from the spec: the in-flight fetch completing (spec sections
4.3 and 5).  The update body is the repository's `_async_update_data`; its
result becomes the stored snapshot, every awaiting caller receives that
single result, the coordinator returns to idle and the schedule is left
untouched. -/
def completeRefresh (outcome : RefreshOutcome) (c : CoordModel) :
    CoordModel × List (Nat × BusInfo) :=
  ({ c with status := CoordStatus.idle,
            waiters := [],
            snapshot := _async_update_data outcome },
   c.waiters.map (fun w => (w, _async_update_data outcome)))

/-- A decimal lies in `[-c, c]` exactly when its cross-multiplied integer
bounds hold; this identifies `coordsInRange` with the rational-value
bounds of the spec. -/
theorem dec_bounds_iff (d : Dec) (c : Int) :
    ((-c) * (10 : Int) ^ d.exp ≤ d.man ∧ d.man ≤ c * (10 : Int) ^ d.exp) ↔
      (-(c : Rat) ≤ d.toRat ∧ d.toRat ≤ (c : Rat)) := by
  have hpos : (0 : Rat) < (((10 : Int) ^ d.exp : Int) : Rat) := by
    exact_mod_cast pow_pos (by norm_num : (0 : Int) < 10) d.exp
  rw [Dec.toRat, Rat.divInt_eq_div]
  constructor
  · rintro ⟨h1, h2⟩
    constructor
    · rw [le_div_iff₀ hpos]
      exact_mod_cast h1
    · rw [div_le_iff₀ hpos]
      exact_mod_cast h2
  · rintro ⟨h1, h2⟩
    rw [le_div_iff₀ hpos] at h1
    rw [div_le_iff₀ hpos] at h2
    exact ⟨by exact_mod_cast h1, by exact_mod_cast h2⟩

/-- The config-flow range check accepts exactly the coordinates whose
rational values satisfy latitude in [-90, 90] and longitude in
[-180, 180]. -/
theorem coordsInRange_iff (lat lon : Dec) :
    coordsInRange lat lon = true ↔
      ((-90 ≤ lat.toRat ∧ lat.toRat ≤ 90) ∧ (-180 ≤ lon.toRat ∧ lon.toRat ≤ 180)) := by
  have h1 := dec_bounds_iff lat 90
  have h2 := dec_bounds_iff lon 180
  simp only [coordsInRange, Bool.and_eq_true, decide_eq_true_eq]
  norm_num at h1 h2 ⊢
  rw [h1, h2]

/-- C3 counterexample.  On the response of testable property 4 — one
TRANSIT step, departure epoch 1700000000, leg duration 600 seconds — the
extractor returns a three-key dictionary holding only the stop name, the
line short name and the departure time.  No duration field of any kind is
produced (`durationMinutes = 10` is false: the code never reads the leg
duration). -/
theorem extract_no_duration_counterexample :
    _extract_bus_info c3resp =
      [("stop_name", Val.js (Json.str "Central Station")),
       ("line_number", Val.js (Json.str "42")),
       ("next_departure", Val.time (some 1700000000))] ∧
    List.lookup "duration_minutes" (_extract_bus_info c3resp) = none ∧
    List.lookup "durationMinutes" (_extract_bus_info c3resp) = none ∧
    List.lookup "duration" (_extract_bus_info c3resp) = none := by
  exact ⟨rfl, rfl, rfl, rfl⟩

/-- C3 as amended.  On that same response the extractor yields a non-null
next-departure timestamp (epoch 1700000000), and the produced keys are
exactly stop name, line number and next departure — no duration. -/
theorem extract_transit_snapshot :
    List.lookup "next_departure" (_extract_bus_info c3resp) =
      some (Val.time (some 1700000000)) ∧
    (_extract_bus_info c3resp).map Prod.fst =
      ["stop_name", "line_number", "next_departure"] := by
  exact ⟨rfl, rfl⟩

/-- C4.  The extractor is total — `_extract_bus_info` returns a dictionary
for every response — and it returns the empty dictionary whenever the `try`
body raises (any structural mismatch), whenever the response has no routes
(missing, empty or otherwise falsy `routes`), and whenever the scanned
steps contain no TRANSIT step. -/
theorem extract_total_empty_on_mismatch (response : Json) :
    (∀ e, extract_core response = Except.error e → _extract_bus_info response = []) ∧
    (∀ v, pyGetD response "routes" Json.null = Except.ok v → pyTruthy v = false →
      _extract_bus_info response = []) ∧
    (∀ sl, extractSteps response = Except.ok sl → findBusStep sl = Except.ok none →
      _extract_bus_info response = []) := by
  refine ⟨?_, ?_, ?_⟩
  · intro e he
    unfold _extract_bus_info
    rw [he]
  · intro v hv htr
    unfold _extract_bus_info extract_core
    rw [hv]
    simp [htr]
  · intro sl hsl hfind
    unfold _extract_bus_info extract_core
    cases hresp : pyGetD response "routes" Json.null with
    | error e =>
      cases response with
      | obj kvs => exact absurd hresp (by simp [pyGetD])
      | null => simp [extractSteps, pyItemStr] at hsl
      | bool b => simp [extractSteps, pyItemStr] at hsl
      | num n => simp [extractSteps, pyItemStr] at hsl
      | str s => simp [extractSteps, pyItemStr] at hsl
      | arr xs => simp [extractSteps, pyItemStr] at hsl
    | ok v =>
      cases htr : pyTruthy v with
      | false => simp [htr]
      | true => simp [htr, hsl, hfind]

/-- Witness for C4: a response whose `routes` value is an empty list is
falsy, and the extractor returns the empty dictionary on it. -/
theorem extract_total_empty_on_mismatch_witness :
    pyTruthy (Json.arr []) = false ∧
    _extract_bus_info (Json.obj [("routes", Json.arr [])]) = [] := by
  exact ⟨rfl,
    (extract_total_empty_on_mismatch (Json.obj [("routes", Json.arr [])])).2.1
      (Json.arr []) rfl rfl⟩

/-- C10.  In the success branch, when the found TRANSIT step's transit
details resolve to dictionaries, the stop name defaults to the literal
string "Unknown" when `departure_stop` has no `name`, the line number
defaults to "Unknown" when `line` has no `short_name`, while the next
departure alone falls back to null — when the `departure_time` value is
missing, falsy, or fails to convert. -/
theorem unknown_fallbacks (skvs tkvs dkvs lkvs dtkvs : List (String × Json))
    (htd : objGetD skvs "transit_details" (Json.obj []) = Json.obj tkvs)
    (hds : objGetD tkvs "departure_stop" (Json.obj []) = Json.obj dkvs)
    (hln : objGetD tkvs "line" (Json.obj []) = Json.obj lkvs)
    (hdt : objGetD tkvs "departure_time" (Json.obj []) = Json.obj dtkvs) :
    buildBusInfo (Json.obj skvs) = Except.ok
      [("stop_name", Val.js (objGetD dkvs "name" (Json.str "Unknown"))),
       ("line_number", Val.js (objGetD lkvs "short_name" (Json.str "Unknown"))),
       ("next_departure", Val.time
         (if pyTruthy (objGetD dtkvs "value" Json.null)
          then pyFromTimestamp (objGetD dtkvs "value" Json.null) else none))] ∧
    (dkvs.lookup "name" = none →
      objGetD dkvs "name" (Json.str "Unknown") = Json.str "Unknown") ∧
    (lkvs.lookup "short_name" = none →
      objGetD lkvs "short_name" (Json.str "Unknown") = Json.str "Unknown") ∧
    (dtkvs.lookup "value" = none →
      (if pyTruthy (objGetD dtkvs "value" Json.null)
       then pyFromTimestamp (objGetD dtkvs "value" Json.null) else none) = none) ∧
    (∀ v, dtkvs.lookup "value" = some v → pyFromTimestamp v = none →
      (if pyTruthy (objGetD dtkvs "value" Json.null)
       then pyFromTimestamp (objGetD dtkvs "value" Json.null) else none) = none) := by
  refine ⟨?_, ?_, ?_, ?_, ?_⟩
  · simp only [buildBusInfo, pyGetD, htd, hds, hln, hdt]
  · intro h
    simp [objGetD, h]
  · intro h
    simp [objGetD, h]
  · intro h
    simp [objGetD, h, pyTruthy]
  · intro v hv hconv
    simp only [objGetD, hv, Option.getD_some]
    cases pyTruthy v <;> simp [hconv]

/-- A key with no binding in an association list matches no entry. -/
theorem lookup_none_filter_key_nil {β : Type} (l : List (String × β)) (k : String)
    (h : l.lookup k = none) : l.filter (fun kv => kv.1 == k) = [] := by
  induction l with
  | nil => rfl
  | cons kv rest ih =>
    obtain ⟨a, b⟩ := kv
    rw [List.lookup] at h
    cases hk : k == a with
    | true => rw [hk] at h; exact absurd h (by simp)
    | false =>
      rw [hk] at h
      have ha : (a == k) = false := by
        have : ¬ k = a := by
          intro he
          rw [he] at hk
          simp at hk
        simp [Ne.symm this]
      simp [List.filter_cons, ha, ih h]

/-- Filtering out a blocklist leaves a list disjoint from it unchanged. -/
theorem filter_disjoint_self (l ids : List String)
    (h : ∀ e ∈ l, ids.contains e = false) :
    l.filter (fun e => !(ids.contains e)) = l := by
  induction l with
  | nil => rfl
  | cons x xs ih =>
    have hx := h x (by simp)
    rw [List.filter_cons, if_pos (by rw [hx]; rfl),
        ih (fun e he => h e (List.mem_cons_of_mem _ he))]

/-- Filtering out a blocklist removes every member of it. -/
theorem filter_contained_nil (l ids : List String)
    (h : ∀ e ∈ l, ids.contains e = true) :
    l.filter (fun e => !(ids.contains e)) = [] := by
  induction l with
  | nil => rfl
  | cons x xs ih =>
    have hx := h x (by simp)
    rw [List.filter_cons, if_neg (by rw [hx]; simp),
        ih (fun e he => h e (List.mem_cons_of_mem _ he))]

/-- Witness for C10: a TRANSIT step with empty transit details yields
"Unknown" for both names and a null next departure. -/
theorem unknown_fallbacks_witness :
    objGetD [("travel_mode", Json.str "TRANSIT"), ("transit_details", Json.obj [])]
      "transit_details" (Json.obj []) = Json.obj [] ∧
    buildBusInfo (Json.obj [("travel_mode", Json.str "TRANSIT"),
                            ("transit_details", Json.obj [])]) =
      Except.ok [("stop_name", Val.js (Json.str "Unknown")),
                 ("line_number", Val.js (Json.str "Unknown")),
                 ("next_departure", Val.time none)] := by
  refine ⟨rfl, ?_⟩
  have h := unknown_fallbacks
    [("travel_mode", Json.str "TRANSIT"), ("transit_details", Json.obj [])]
    [] [] [] [] rfl rfl rfl rfl
  exact h.1

/-- C5 counterexample.  The runtime track command performs no coordinate
validation: a tracking request with origin "95,0" (latitude 95, out of
range) is accepted and a Coordinator is created and registered for it —
refuting the claim that every such request is rejected before any
Coordinator is created. -/
theorem track_skips_coordinate_validation :
    (async_handle_track_bus (some "42") (some "95,0") (some "52.1,4.1")
      { coordinators := [], entities := [], shutdowns := [], fetches := 0 }).2 =
      TrackOutcome.tracked ∧
    (async_handle_track_bus (some "42") (some "95,0") (some "52.1,4.1")
      { coordinators := [], entities := [], shutdowns := [], fetches := 0 }).1.coordinators =
      [("42", { origin := "95,0", destination := "52.1,4.1", route_number := "42" })] := by
  exact ⟨rfl, rfl⟩

/-- C5 as amended.  Coordinate validation happens in the config flow, not
in the track command: a config-flow submission whose origin parses to a
latitude outside [-90, 90] or longitude outside [-180, 180] is rejected
with the origin field marked invalid (no entry created), while the
in-range origin "52.1,4.1" is accepted. -/
theorem config_flow_validates_coordinates (ui : UserInput) (lat lon : Dec)
    (hp : parseCoord ui.origin = some (lat, lon))
    (hout : lat.toRat < -90 ∨ 90 < lat.toRat ∨ lon.toRat < -180 ∨ 180 < lon.toRat) :
    rejectsOrigin (async_step_user ui) ∧
    async_step_user { api_key := "key", origin := "52.1,4.1",
                      destination := "52.1,4.1", route_number := "42" } =
      FlowResult.createEntry "Bus 42"
        { api_key := "key", origin := "52.1,4.1",
          destination := "52.1,4.1", route_number := "42" } := by
  refine ⟨?_, by decide⟩
  have hfalse : coordsInRange lat lon = false := by
    cases hcr : coordsInRange lat lon with
    | false => rfl
    | true =>
      exfalso
      have hb := (coordsInRange_iff lat lon).mp hcr
      rcases hout with h | h | h | h
      · linarith [hb.1.1]
      · linarith [hb.1.2]
      · linarith [hb.2.1]
      · linarith [hb.2.2]
  unfold async_step_user
  rw [hp]
  cases hdest : parseCoord ui.destination with
  | none => simp [rejectsOrigin, hfalse]
  | some p =>
    obtain ⟨lat2, lon2⟩ := p
    cases coordsInRange lat2 lon2 <;> simp [rejectsOrigin, hfalse]

/-- Witness for the amended C5: origin "95,0" parses to latitude 95,
which exceeds 90, and the config flow rejects that submission marking the
origin field invalid. -/
theorem config_flow_validates_coordinates_witness :
    parseCoord "95,0" = some (⟨95, 0⟩, ⟨0, 0⟩) ∧
    rejectsOrigin (async_step_user { api_key := "key", origin := "95,0",
                                     destination := "52.1,4.1", route_number := "42" }) := by
  refine ⟨by decide, ?_⟩
  exact (config_flow_validates_coordinates
    { api_key := "key", origin := "95,0",
      destination := "52.1,4.1", route_number := "42" }
    ⟨95, 0⟩ ⟨0, 0⟩ (by decide) (Or.inr (Or.inl (by decide)))).1

/-- C6.  Tracking the same route identifier twice: the second call reports
already-tracked and is a no-op — the state is unchanged, so no second
Coordinator is constructed and no fetch is performed — and the Registry
holds exactly one Coordinator entry for that identifier. -/
theorem track_twice_already_tracked (st : TrackerState) (rn o d o2 d2 : String)
    (hrn : rn ≠ "") (ho : o ≠ "") (hd : d ≠ "") (ho2 : o2 ≠ "") (hd2 : d2 ≠ "")
    (habs : st.coordinators.lookup rn = none) :
    (async_handle_track_bus (some rn) (some o2) (some d2)
      (async_handle_track_bus (some rn) (some o) (some d) st).1).2 =
      TrackOutcome.alreadyTracked ∧
    (async_handle_track_bus (some rn) (some o2) (some d2)
      (async_handle_track_bus (some rn) (some o) (some d) st).1).1 =
      (async_handle_track_bus (some rn) (some o) (some d) st).1 ∧
    ((async_handle_track_bus (some rn) (some o2) (some d2)
      (async_handle_track_bus (some rn) (some o) (some d) st).1).1.coordinators.filter
        (fun kv => kv.1 == rn)).length = 1 ∧
    (async_handle_track_bus (some rn) (some o2) (some d2)
      (async_handle_track_bus (some rn) (some o) (some d) st).1).1.fetches =
      (async_handle_track_bus (some rn) (some o) (some d) st).1.fetches := by
  have h1 : async_handle_track_bus (some rn) (some o) (some d) st =
      ({ coordinators := (rn, { origin := o, destination := d, route_number := rn })
           :: st.coordinators,
         entities := st.entities ++ sensorEntityIds rn,
         shutdowns := st.shutdowns,
         fetches := st.fetches + 1 }, TrackOutcome.tracked) := by
    simp [async_handle_track_bus, hrn, ho, hd, habs]
  rw [h1]
  have h2 : async_handle_track_bus (some rn) (some o2) (some d2)
      { coordinators := (rn, { origin := o, destination := d, route_number := rn })
          :: st.coordinators,
        entities := st.entities ++ sensorEntityIds rn,
        shutdowns := st.shutdowns,
        fetches := st.fetches + 1 } =
      ({ coordinators := (rn, { origin := o, destination := d, route_number := rn })
           :: st.coordinators,
         entities := st.entities ++ sensorEntityIds rn,
         shutdowns := st.shutdowns,
         fetches := st.fetches + 1 }, TrackOutcome.alreadyTracked) := by
    simp [async_handle_track_bus, hrn, ho2, hd2, List.lookup]
  rw [h2]
  refine ⟨rfl, rfl, ?_, rfl⟩
  simp [List.filter_cons, lookup_none_filter_key_nil st.coordinators rn habs]

/-- Witness for C6: tracking route "42" twice from the empty state. -/
theorem track_twice_already_tracked_witness :
    (([] : List (String × BusCoordinator)).lookup "42" = none) ∧
    (async_handle_track_bus (some "42") (some "52.3,4.3") (some "52.4,4.4")
      (async_handle_track_bus (some "42") (some "52.1,4.1") (some "52.2,4.2")
        { coordinators := [], entities := [], shutdowns := [], fetches := 0 }).1).2 =
      TrackOutcome.alreadyTracked := by
  refine ⟨rfl, ?_⟩
  exact (track_twice_already_tracked
    { coordinators := [], entities := [], shutdowns := [], fetches := 0 }
    "42" "52.1,4.1" "52.2,4.2" "52.3,4.3" "52.4,4.4"
    (by decide) (by decide) (by decide) (by decide) (by decide) rfl).1

/-- C8.  Tracking a previously-unused identifier and then immediately
untracking it leaves the Registry empty: the untrack removes the display
entities added by the track (entities return to their prior contents), the
coordinator receives `async_shutdown`, and the mapping entry is removed. -/
theorem track_untrack_roundtrip (st : TrackerState) (rn o d : String)
    (hrn : rn ≠ "") (ho : o ≠ "") (hd : d ≠ "")
    (hreg : st.coordinators = [])
    (hent : ∀ e ∈ st.entities, (sensorEntityIds rn).contains e = false) :
    async_handle_untrack_bus (some rn)
        (async_handle_track_bus (some rn) (some o) (some d) st).1 =
      { coordinators := [], entities := st.entities,
        shutdowns := st.shutdowns ++ [rn], fetches := st.fetches + 1 } ∧
    rn ∈ (async_handle_untrack_bus (some rn)
        (async_handle_track_bus (some rn) (some o) (some d) st).1).shutdowns := by
  have habs : st.coordinators.lookup rn = none := by rw [hreg]; rfl
  have h1 : async_handle_track_bus (some rn) (some o) (some d) st =
      ({ coordinators := [(rn, { origin := o, destination := d, route_number := rn })],
         entities := st.entities ++ sensorEntityIds rn,
         shutdowns := st.shutdowns,
         fetches := st.fetches + 1 }, TrackOutcome.tracked) := by
    simp [async_handle_track_bus, hrn, ho, hd, habs, hreg]
  rw [h1]
  have hfilter : (st.entities ++ sensorEntityIds rn).filter
      (fun e => !((sensorEntityIds rn).contains e)) = st.entities := by
    rw [List.filter_append, filter_disjoint_self st.entities _ hent,
        filter_contained_nil (sensorEntityIds rn) (sensorEntityIds rn)
          (fun e he => List.elem_iff.mpr he), List.append_nil]
  have h2 : async_handle_untrack_bus (some rn)
      { coordinators := [(rn, { origin := o, destination := d, route_number := rn })],
        entities := st.entities ++ sensorEntityIds rn,
        shutdowns := st.shutdowns,
        fetches := st.fetches + 1 } =
      { coordinators := [], entities := st.entities,
        shutdowns := st.shutdowns ++ [rn], fetches := st.fetches + 1 } := by
    simp only [async_handle_untrack_bus]
    rw [if_neg hrn, hfilter]
    simp only [List.lookup, beq_self_eq_true, List.filter_cons, bne_self_eq_false,
               List.filter_nil, Bool.false_eq_true, if_false]
  rw [h2]
  exact ⟨rfl, by simp⟩

/-- Witness for C8: track route "42" from the empty state, then untrack
it — the Registry ends empty and the coordinator was shut down. -/
theorem track_untrack_roundtrip_witness :
    (async_handle_untrack_bus (some "42")
      (async_handle_track_bus (some "42") (some "52.1,4.1") (some "52.2,4.2")
        { coordinators := [], entities := [], shutdowns := [],
          fetches := 0 }).1).coordinators = [] ∧
    "42" ∈ (async_handle_untrack_bus (some "42")
      (async_handle_track_bus (some "42") (some "52.1,4.1") (some "52.2,4.2")
        { coordinators := [], entities := [], shutdowns := [],
          fetches := 0 }).1).shutdowns := by
  have h := track_untrack_roundtrip
    { coordinators := [], entities := [], shutdowns := [], fetches := 0 }
    "42" "52.1,4.1" "52.2,4.2" (by decide) (by decide) (by decide) rfl
    (fun e he => absurd he (List.not_mem_nil e))
  exact ⟨by rw [h.1], h.2⟩

/-- A Python equality check against a string literal succeeds exactly on
that string value. -/
theorem pyEqStr_ok_iff (v : Json) (s : String) : pyEqStr v s = true ↔ v = Json.str s := by
  cases v <;> simp [pyEqStr]

/-- C7.  `get_directions` returns the parsed body exactly when its status
field equals "OK"; a non-"OK" status yields the single `gmapsError` kind
whose message carries the status and the optional error message (wrapped by
the catch-all re-raise); a transport error and any other unexpected fault
yield the same single `gmapsError` kind. -/
theorem get_directions_status_ok (o d r : String)
    (ho : o ≠ "") (hd : d ≠ "") (hr : r ≠ "")
    (outcome : FetchOutcome) (data : Json) :
    (get_directions o d r outcome = Except.ok data ↔
      outcome = FetchOutcome.body data ∧ statusOf data = Json.str "OK") ∧
    (∀ kvs, outcome = FetchOutcome.body (Json.obj kvs) →
      pyEqStr (objGetD kvs "status" Json.null) "OK" = false →
      get_directions o d r outcome = Except.error (PyExc.gmapsError
        ("Unexpected error: " ++ apiErrorMessage (objGetD kvs "status" Json.null)
          (objGetD kvs "error_message" Json.null)))) ∧
    (∀ m, get_directions o d r (FetchOutcome.transportError m) =
      Except.error (PyExc.gmapsError ("Error fetching data from Google Maps API: " ++ m))) ∧
    (∀ m, get_directions o d r (FetchOutcome.otherFault m) =
      Except.error (PyExc.gmapsError ("Unexpected error: " ++ m))) := by
  have hpre : ¬ (o = "" ∨ d = "" ∨ r = "") := by
    push_neg
    exact ⟨ho, hd, hr⟩
  have hbody : ∀ kvs : List (String × Json),
      get_directions o d r (FetchOutcome.body (Json.obj kvs)) =
        if pyEqStr (objGetD kvs "status" Json.null) "OK" = true then
          Except.ok (Json.obj kvs)
        else
          Except.error (PyExc.gmapsError ("Unexpected error: " ++
            apiErrorMessage (objGetD kvs "status" Json.null)
              (objGetD kvs "error_message" Json.null))) := by
    intro kvs
    unfold get_directions
    rw [if_neg hpre]
  have htrans : ∀ m, get_directions o d r (FetchOutcome.transportError m) =
      Except.error (PyExc.gmapsError ("Error fetching data from Google Maps API: " ++ m)) := by
    intro m
    unfold get_directions
    rw [if_neg hpre]
  have hother : ∀ m, get_directions o d r (FetchOutcome.otherFault m) =
      Except.error (PyExc.gmapsError ("Unexpected error: " ++ m)) := by
    intro m
    unfold get_directions
    rw [if_neg hpre]
  have hnonobj : ∀ v, statusOf v = Json.null → (∀ kvs, v ≠ Json.obj kvs) →
      get_directions o d r (FetchOutcome.body v) =
        Except.error (PyExc.gmapsError "Unexpected error: get") := by
    intro v hv hno
    cases v with
    | obj kvs => exact absurd rfl (hno kvs)
    | null => unfold get_directions; rw [if_neg hpre]
    | bool b => unfold get_directions; rw [if_neg hpre]
    | num n => unfold get_directions; rw [if_neg hpre]
    | str s2 => unfold get_directions; rw [if_neg hpre]
    | arr xs => unfold get_directions; rw [if_neg hpre]
  refine ⟨⟨?_, ?_⟩, ?_, ?_, ?_⟩
  · intro h
    cases outcome with
    | transportError m =>
      rw [htrans m] at h
      exact absurd h (by simp)
    | otherFault m =>
      rw [hother m] at h
      exact absurd h (by simp)
    | body data2 =>
      cases data2 with
      | obj kvs =>
        rw [hbody kvs] at h
        by_cases hok : pyEqStr (objGetD kvs "status" Json.null) "OK" = true
        · rw [if_pos hok] at h
          injection h with h2
          subst h2
          exact ⟨rfl, (pyEqStr_ok_iff _ _).mp hok⟩
        · rw [if_neg hok] at h
          exact absurd h (by simp)
      | null =>
        rw [hnonobj Json.null rfl (fun kvs => by simp)] at h
        exact absurd h (by simp)
      | bool b =>
        rw [hnonobj (Json.bool b) rfl (fun kvs => by simp)] at h
        exact absurd h (by simp)
      | num n =>
        rw [hnonobj (Json.num n) rfl (fun kvs => by simp)] at h
        exact absurd h (by simp)
      | str s2 =>
        rw [hnonobj (Json.str s2) rfl (fun kvs => by simp)] at h
        exact absurd h (by simp)
      | arr xs =>
        rw [hnonobj (Json.arr xs) rfl (fun kvs => by simp)] at h
        exact absurd h (by simp)
  · rintro ⟨rfl, hst⟩
    cases data with
    | obj kvs =>
      have hst2 : objGetD kvs "status" Json.null = Json.str "OK" := hst
      rw [hbody kvs, if_pos ((pyEqStr_ok_iff _ _).mpr hst2)]
    | null => exact absurd hst (by simp [statusOf])
    | bool b => exact absurd hst (by simp [statusOf])
    | num n => exact absurd hst (by simp [statusOf])
    | str s2 => exact absurd hst (by simp [statusOf])
    | arr xs => exact absurd hst (by simp [statusOf])
  · rintro kvs rfl hok
    rw [hbody kvs, if_neg (by rw [hok]; exact Bool.false_ne_true)]
  · exact htrans
  · exact hother

/-- Witness for C7: nonempty arguments and a body whose status is "OK"
make `get_directions` return that body. -/
theorem get_directions_status_ok_witness :
    get_directions "52.1,4.1" "52.2,4.2" "42"
      (FetchOutcome.body (Json.obj [("status", Json.str "OK")])) =
      Except.ok (Json.obj [("status", Json.str "OK")]) := by
  exact ((get_directions_status_ok "52.1,4.1" "52.2,4.2" "42"
    (by decide) (by decide) (by decide)
    (FetchOutcome.body (Json.obj [("status", Json.str "OK")]))
    (Json.obj [("status", Json.str "OK")])).1).mpr ⟨rfl, rfl⟩

/-- C9 (code bug).  For every config entry, `async_setup_entry` fails:
the call `GoogleMapsAPI(hass, entry.data)` passes two positional arguments
to a constructor declaring only `api_key`, raising TypeError, so setup
always returns False and the client is never constructed from the
credential.  The constructor itself, called as declared, does reject an
empty credential with ValueError — that part of the claim matches the
code. -/
theorem setup_entry_always_fails (entry : ConfigEntryData) :
    async_setup_entry entry = false ∧
    callGoogleMapsAPI [PyArg.hassObj, PyArg.configData entry.data] =
      Except.error (PyExc.typeError
        "GoogleMapsAPI() takes 1 positional argument but 2 were given") ∧
    callGoogleMapsAPI [PyArg.strArg ""] =
      Except.error (PyExc.valueError "API key is required") := by
  exact ⟨rfl, rfl, rfl⟩

/-- Requests arriving while a refresh is in flight are all coalesced:
the status stays refreshing, no new fetch is started, and every caller is
appended to the waiters. -/
theorem refreshAll_refreshing (callers : List Nat) (c : CoordModel)
    (h : c.status = CoordStatus.refreshing) :
    (refreshAll callers c).status = CoordStatus.refreshing ∧
    (refreshAll callers c).fetchCount = c.fetchCount ∧
    (refreshAll callers c).waiters = c.waiters ++ callers := by
  induction callers generalizing c with
  | nil => exact ⟨h, rfl, (List.append_nil _).symm⟩
  | cons k ks ih =>
    have hr : requestRefresh k c = { c with waiters := c.waiters ++ [k] } := by
      simp [requestRefresh, h]
    have hs : (requestRefresh k c).status = CoordStatus.refreshing := by
      rw [hr]
      exact h
    have hrec := ih (requestRefresh k c) hs
    refine ⟨hrec.1, ?_, ?_⟩
    · rw [show refreshAll (k :: ks) c = refreshAll ks (requestRefresh k c) from rfl,
          hrec.2.1, hr]
    · rw [show refreshAll (k :: ks) c = refreshAll ks (requestRefresh k c) from rfl,
          hrec.2.2, hr]
      show (c.waiters ++ [k]) ++ ks = c.waiters ++ (k :: ks)
      simp

/-- C1 (coordinator model from the spec).  While a fetch is in flight, any
batch of further `refresh()` calls starts no additional fetch — the fetch
count is unchanged, so the Directions Client is invoked at most once in
total for all of them — and when the in-flight refresh completes, every
one of those callers receives the result of that single attempt. -/
theorem refresh_single_flight (c : CoordModel) (callers : List Nat)
    (h : c.status = CoordStatus.refreshing) :
    (refreshAll callers c).fetchCount = c.fetchCount ∧
    (refreshAll callers c).status = CoordStatus.refreshing ∧
    ∀ outcome : RefreshOutcome, ∀ k ∈ callers,
      (k, _async_update_data outcome) ∈
        (completeRefresh outcome (refreshAll callers c)).2 := by
  obtain ⟨hs, hf, hw⟩ := refreshAll_refreshing callers c h
  refine ⟨hf, hs, ?_⟩
  intro outcome k hk
  show (k, _async_update_data outcome) ∈
    (refreshAll callers c).waiters.map (fun w => (w, _async_update_data outcome))
  rw [hw]
  exact List.mem_map_of_mem _ (List.mem_append_right _ hk)

/-- Witness for C1: starting from a refreshing coordinator with one fetch
started, two more refresh calls leave the fetch count at one, and caller 7
receives the failed attempt's (empty) result on completion. -/
theorem refresh_single_flight_witness :
    (refreshAll [7, 8] { status := CoordStatus.refreshing, waiters := [],
                         fetchCount := 1, snapshot := [],
                         scheduleActive := true }).fetchCount = 1 ∧
    (7, ([] : BusInfo)) ∈ (completeRefresh (RefreshOutcome.apiError "boom")
      (refreshAll [7, 8] { status := CoordStatus.refreshing, waiters := [],
                           fetchCount := 1, snapshot := [],
                           scheduleActive := true })).2 := by
  refine ⟨(refresh_single_flight _ [7, 8] rfl).1, ?_⟩
  exact (refresh_single_flight { status := CoordStatus.refreshing, waiters := [],
                                 fetchCount := 1, snapshot := [],
                                 scheduleActive := true } [7, 8] rfl).2.2
    (RefreshOutcome.apiError "boom") 7 (by simp)

/-- C2.  A failed fetch is swallowed by the refresh: the update body
returns the empty dictionary instead of raising (it is total), and on
completion the coordinator's snapshot is reset to empty — not the previous
values — its status returns to idle, and the refresh schedule is left
exactly as it was (a failure never cancels future scheduled refreshes). -/
theorem fetch_failure_swallowed (c : CoordModel) (msg : String) :
    _async_update_data (RefreshOutcome.apiError msg) = [] ∧
    (completeRefresh (RefreshOutcome.apiError msg) c).1.status = CoordStatus.idle ∧
    (completeRefresh (RefreshOutcome.apiError msg) c).1.snapshot = [] ∧
    (completeRefresh (RefreshOutcome.apiError msg) c).1.scheduleActive =
      c.scheduleActive := by
  exact ⟨rfl, rfl, rfl, rfl⟩
